import Mathlib

/-!
Shallow embedding of `src/middleware/express.app.config.ts`
(class `ExpressAppConfig`) from swagger-tools-oas3.

The constructor wires a fixed list of Express middlewares onto an
application handle; we model the handle as the ordered list of
middlewares registered on it, and the constructor as a pure function
threading that state (plus the caller's options bundle, which the code
mutates through aliasing) and returning `Except` for the two throwing
steps (`fs.readFileSync` and `jsyaml.load`).
-/

namespace SwaggerToolsOas3

/-- JavaScript values, as far as this middleware configuration code
inspects them: strings, integer numbers, booleans, null, undefined and
other objects. -/
inductive JsVal where
  | jstr (s : String)
  | jnum (n : Int)
  | jbool (b : Bool)
  | jnull
  | jundef
  | jobj
deriving DecidableEq, Repr

/-- Whitespace skipped by JavaScript `parseInt` before parsing. -/
def jsWhitespace (c : Char) : Bool :=
  c = ' ' || c = '\t' || c = '\n' || c = '\r' || c = '\x0b' || c = '\x0c'

/-- Value of a character as a digit (up to base 16), as `parseInt` reads it. -/
def hexDigitVal (c : Char) : Option Nat :=
  if '0' ≤ c ∧ c ≤ '9' then some (c.toNat - '0'.toNat)
  else if 'a' ≤ c ∧ c ≤ 'f' then some (c.toNat - 'a'.toNat + 10)
  else if 'A' ≤ c ∧ c ≤ 'F' then some (c.toNat - 'A'.toNat + 10)
  else none

/-- Longest leading run of digits valid in the given radix. -/
def takeDigits (radix : Nat) : List Char → List Nat
  | [] => []
  | c :: cs =>
    match hexDigitVal c with
    | some v => if v < radix then v :: takeDigits radix cs else []
    | none => []

/-- Numeric value of a digit list in the given radix. -/
def digitsToNat (radix : Nat) (ds : List Nat) : Nat :=
  ds.foldl (fun acc d => acc * radix + d) 0

/-- Model of JavaScript `parseInt` applied to a string (radix argument
omitted, as in the source): skip whitespace, optional sign, optional
`0x`/`0X` hex marker, then the longest digit run; `none` models `NaN`. -/
def parseIntStr (s : String) : Option Int :=
  let cs := s.toList.dropWhile jsWhitespace
  let signAndRest : Int × List Char :=
    match cs with
    | '-' :: rest => (-1, rest)
    | '+' :: rest => (1, rest)
    | _ => (1, cs)
  let radixAndRest : Nat × List Char :=
    match signAndRest.2 with
    | '0' :: 'x' :: rest => (16, rest)
    | '0' :: 'X' :: rest => (16, rest)
    | _ => (10, signAndRest.2)
  match takeDigits radixAndRest.1 radixAndRest.2 with
  | [] => none
  | ds => some (signAndRest.1 * (digitsToNat radixAndRest.1 ds : Int))

/-- Model of JavaScript `parseInt` on an arbitrary value: the argument is
first converted to a string, so integer numbers parse back to themselves
and booleans, null, undefined and plain objects all give `NaN` (`none`). -/
def parseIntJs : JsVal → Option Int
  | JsVal.jstr s => parseIntStr s
  | JsVal.jnum n => some n
  | JsVal.jbool _ => none
  | JsVal.jnull => none
  | JsVal.jundef => none
  | JsVal.jobj => none

/-- Whether `typeof v` is `'string'` or `'number'`, the guard on
`loggerOptions.errorLimit` in `configureLogger`. -/
def isStringOrNumber : JsVal → Bool
  | JsVal.jstr _ => true
  | JsVal.jnum _ => true
  | _ => false

/-- Skip predicate installed by `configureLogger`
(`function (req, res) \x7b return res.statusCode < parseInt(loggerOptions.errorLimit); \x7d`);
a `NaN` threshold makes the comparison false, so nothing is skipped. -/
def skipFun (errorLimit : JsVal) (statusCode : Int) : Bool :=
  match parseIntJs errorLimit with
  | some t => decide (statusCode < t)
  | none => false

/-- Logging options object (`appOptions.logging`): a `format` field and an
`errorLimit` field, each an arbitrary JavaScript value. -/
structure LoggerOptions where
  format : JsVal
  errorLimit : JsVal
deriving DecidableEq, Repr

/-- Arguments handed to `morgan`: the format string and the optional
`skip` entry of the options object. -/
structure MorganConfig where
  format : String
  skip : Option (Int → Bool)

/-- Model of `ExpressAppConfig.configureLogger`: format defaults to
`'dev'` unless a string `format` field is present; a `skip` predicate is
installed exactly when `errorLimit` is defined and of type string or
number. `none` for the whole options object covers both `undefined` and
`null`, which the source's loose `!= undefined` check treats alike. -/
def configureLogger (loggerOptions : Option LoggerOptions) : MorganConfig :=
  match loggerOptions with
  | none => { format := "dev", skip := none }
  | some lo =>
    let format : String :=
      match lo.format with
      | JsVal.jstr s => s
      | _ => "dev"
    let skip : Option (Int → Bool) :=
      match lo.errorLimit with
      | JsVal.jstr _ => some (skipFun lo.errorLimit)
      | JsVal.jnum _ => some (skipFun lo.errorLimit)
      | _ => none
    { format := format, skip := skip }

/-- Pass-through JavaScript option objects (routing, cors, swaggerUI)
that this code never inspects: modelled as key/value lists. -/
abbrev JsObj := List (String × String)

/-- Options object for `express-openapi-validator`: the `apiSpec` field
the code overwrites, plus the remaining caller-supplied fields. -/
structure ValidatorOptions where
  apiSpec : Option String
  extra : JsObj
deriving DecidableEq, Repr

/-- One middleware registered on the Express app, tagged with the
configuration values the constructor passes to it; `use` order is list
order. -/
inductive Middleware where
  | cors (opts : JsObj)
  | bodyUrlencoded (limit : String)
  | bodyText (limit : String)
  | bodyJson (limit : String)
  | bodyRaw (contentType : String) (limit : String)
  | morganLogger (format : String) (skipInstalled : Bool)
  | expressJson (contentType : String)
  | expressUrlencoded
  | cookieParse
  | swaggerUi (doc : String) (opts : JsObj)
  | openApiValidator (opts : ValidatorOptions)
  | swaggerParameters
  | custom (id : Nat)
  | swaggerRouter (routing : JsObj)
  | errorMiddleware
deriving DecidableEq, Repr

/-- The `Oas3AppOptions` bundle passed to the constructor. `none` models
an absent (undefined/null) field; `app` carries the middleware chain of
a caller-supplied application handle. -/
structure Oas3AppOptions where
  routing : JsObj
  parserLimit : Option String
  app : Option (List Middleware)
  cors : JsObj
  logging : Option LoggerOptions
  swaggerUI : JsObj
  openApiValidator : Option ValidatorOptions
deriving DecidableEq, Repr

/-- Model of `ExpressAppConfig.setOpenApiValidatorOptions`: first
component is the value stored in `this.openApiValidatorOptions`, second
is the caller's options bundle afterwards. When the caller supplied
validator options the code keeps a reference to that very object and
assigns its `apiSpec` field, so the bundle is mutated too. -/
def setOpenApiValidatorOptions (definitionPath : String)
    (appOptions : Oas3AppOptions) : ValidatorOptions × Oas3AppOptions :=
  match appOptions.openApiValidator with
  | none => ({ apiSpec := some definitionPath, extra := [] }, appOptions)
  | some given =>
    let updated : ValidatorOptions := { given with apiSpec := some definitionPath }
    (updated, { appOptions with openApiValidator := some updated })

/-- The two ways construction can throw: `fs.readFileSync` on a missing
or unreadable file, `jsyaml.load` on malformed YAML/JSON. -/
inductive CtorError where
  | ioError
  | parseError
deriving DecidableEq, Repr

/-- The constructed `ExpressAppConfig` instance: its private fields. -/
structure ExpressAppConfig where
  app : List Middleware
  routingOptions : JsObj
  parserLimit : String
  definitionPath : String
  openApiValidatorOptions : ValidatorOptions
deriving DecidableEq, Repr

/-- Everything observable after running the constructor: the thrown
error or the instance, the middleware chain of the application object
that was used (the caller's handle when one was supplied), and the
caller's options bundle (mutated through aliasing). -/
structure ConstructResult where
  result : Except CtorError ExpressAppConfig
  appState : List Middleware
  appOptionsAfter : Oas3AppOptions
deriving Repr

/-- Effective parser limit: `appOptions.parserLimit || '100kb'`; the
empty string is falsy in JavaScript, so it also falls back. -/
def effectiveParserLimit (parserLimit : Option String) : String :=
  match parserLimit with
  | some l => if l = "" then "100kb" else l
  | none => "100kb"

/-- Model of the `ExpressAppConfig` constructor. `fs` maps a path to the
file's contents (none = read throws); `yaml` maps file contents to the
loaded document (none = load throws). Each `this.app.use(...)` line of
the source appends one tagged middleware to the chain; the CORS
middleware is registered before the file is read, so it is on the chain
even when construction fails. -/
def ExpressAppConfig.construct (fs yaml : String → Option String)
    (definitionPath : String) (appOptions : Oas3AppOptions)
    (customMiddlewares : Option (List Nat))
    (jsonExpressType : String := "application/json") : ConstructResult :=
  let parserLimit := effectiveParserLimit appOptions.parserLimit
  let validatorOptions := (setOpenApiValidatorOptions definitionPath appOptions).1
  let appOptionsAfter := (setOpenApiValidatorOptions definitionPath appOptions).2
  let app0 := appOptions.app.getD []
  let app1 := app0 ++ [Middleware.cors appOptions.cors]
  match fs definitionPath with
  | none =>
    { result := Except.error CtorError.ioError, appState := app1,
      appOptionsAfter := appOptionsAfter }
  | some spec =>
    match yaml spec with
    | none =>
      { result := Except.error CtorError.parseError, appState := app1,
        appOptionsAfter := appOptionsAfter }
    | some swaggerDoc =>
      let app2 := app1 ++ [Middleware.bodyUrlencoded parserLimit]
      let app3 := app2 ++ [Middleware.bodyText parserLimit]
      let app4 := app3 ++ [Middleware.bodyJson parserLimit]
      let app5 := app4 ++ [Middleware.bodyRaw "application/pdf" parserLimit]
      let mc := configureLogger appOptions.logging
      let app6 := app5 ++ [Middleware.morganLogger mc.format mc.skip.isSome]
      let app7 := app6 ++ [Middleware.expressJson jsonExpressType]
      let app8 := app7 ++ [Middleware.expressUrlencoded]
      let app9 := app8 ++ [Middleware.cookieParse]
      let app10 := app9 ++ [Middleware.swaggerUi swaggerDoc appOptions.swaggerUI]
      let app11 := app10 ++ [Middleware.openApiValidator validatorOptions]
      let app12 := app11 ++ [Middleware.swaggerParameters]
      let app13 := app12 ++ (customMiddlewares.getD []).map Middleware.custom
      let app14 := app13 ++ [Middleware.swaggerRouter appOptions.routing]
      let app15 := app14 ++ [Middleware.errorMiddleware]
      { result := Except.ok
          { app := app15, routingOptions := appOptions.routing,
            parserLimit := parserLimit, definitionPath := definitionPath,
            openApiValidatorOptions := validatorOptions },
        appState := app15, appOptionsAfter := appOptionsAfter }

/-- Model of `ExpressAppConfig.getApp`: returns `this.app` and leaves
the instance as it was. -/
def ExpressAppConfig.getApp (c : ExpressAppConfig) :
    List Middleware × ExpressAppConfig :=
  (c.app, c)

/-- Failure object reaching the terminal error middleware: its `status`,
`message` and `errors` fields. -/
structure ErrorObj where
  status : Option Int
  message : JsVal
  errors : JsVal
deriving DecidableEq, Repr

/-- Response emitted by the terminal error middleware: status code and
the two fields of the JSON body. -/
structure ErrorResponse where
  status : Int
  bodyMessage : JsVal
  bodyErrors : JsVal
deriving DecidableEq, Repr

/-- Model of `ExpressAppConfig.errorHandler`:
`response.status(error.status || 500).json(\x7b message, errors \x7d)`.
The JavaScript `||` falls back to 500 whenever `error.status` is falsy,
so both an absent status and a status of 0 yield 500. -/
def errorHandler (error : ErrorObj) : ErrorResponse :=
  { status :=
      match error.status with
      | some s => if s = 0 then 500 else s
      | none => 500,
    bodyMessage := error.message,
    bodyErrors := error.errors }

/-! Concrete fixtures used to instantiate the theorems below. -/

/-- File system exposing one readable OpenAPI file at every path. -/
def wFs : String → Option String := fun _ => some "openapi: 3.0.0"

/-- YAML loader that succeeds, returning a fixed loaded document. -/
def wYaml : String → Option String := fun _ => some "loadedDoc"

/-- File system on which every read throws (missing file). -/
def wFsMissing : String → Option String := fun _ => none

/-- Caller-supplied validator options carrying a stale `apiSpec` and one
extra field. -/
def wValidatorGiven : ValidatorOptions :=
  { apiSpec := some "stale.yaml", extra := [("validateRequests", "true")] }

/-- Options bundle that supplies validator options but no app handle. -/
def wOpts : Oas3AppOptions :=
  { routing := [("controllers", "./controllers")], parserLimit := none,
    app := none, cors := [], logging := none, swaggerUI := [],
    openApiValidator := some wValidatorGiven }

/-- Options bundle that supplies a pre-existing (empty-chain) app handle
and leaves every defaultable field absent. -/
def wOptsWithApp : Oas3AppOptions :=
  { routing := [], parserLimit := none, app := some [], cors := [],
    logging := none, swaggerUI := [], openApiValidator := none }

/-- The instance produced by constructing with `wFs`, `wYaml`,
`"api.yaml"` and `wOptsWithApp`. -/
def wConstructed : ExpressAppConfig :=
  { app :=
      [Middleware.cors [], Middleware.bodyUrlencoded "100kb",
       Middleware.bodyText "100kb", Middleware.bodyJson "100kb",
       Middleware.bodyRaw "application/pdf" "100kb",
       Middleware.morganLogger "dev" false,
       Middleware.expressJson "application/json",
       Middleware.expressUrlencoded, Middleware.cookieParse,
       Middleware.swaggerUi "loadedDoc" [],
       Middleware.openApiValidator { apiSpec := some "api.yaml", extra := [] },
       Middleware.swaggerParameters, Middleware.swaggerRouter [],
       Middleware.errorMiddleware],
    routingOptions := [], parserLimit := "100kb",
    definitionPath := "api.yaml",
    openApiValidatorOptions := { apiSpec := some "api.yaml", extra := [] } }

/-- Logging options with a numeric error-status threshold of 400. -/
def wLoggerNum : LoggerOptions := { format := JsVal.jundef, errorLimit := JsVal.jnum 400 }

/-- Logging options whose errorLimit is a non-numeric string. -/
def wLoggerBadStr : LoggerOptions := { format := JsVal.jundef, errorLimit := JsVal.jstr "plenty" }

/-- Logging options whose errorLimit is a boolean (neither string nor number). -/
def wLoggerBool : LoggerOptions := { format := JsVal.jundef, errorLimit := JsVal.jbool true }

/-- Failure object carrying status 404, a message and an errors value. -/
def wErr404 : ErrorObj := { status := some 404, message := JsVal.jstr "Not Found", errors := JsVal.jobj }

/-- Failure object carrying the falsy status 0. -/
def wErr0 : ErrorObj := { status := some 0, message := JsVal.jundef, errors := JsVal.jundef }

/-! Helper lemmas characterising `ExpressAppConfig.construct` on each of
its three outcomes. -/

/-- When the file read throws, construction propagates the I/O error;
the app in use already carries the CORS middleware, and the caller's
options bundle has already been updated. -/
theorem construct_fs_error (fs yaml : String → Option String) (p jt : String)
    (opts : Oas3AppOptions) (customs : Option (List Nat)) (h : fs p = none) :
    ExpressAppConfig.construct fs yaml p opts customs jt =
      { result := Except.error CtorError.ioError,
        appState := opts.app.getD [] ++ [Middleware.cors opts.cors],
        appOptionsAfter := (setOpenApiValidatorOptions p opts).2 } := by
  simp only [ExpressAppConfig.construct, h]

/-- When the file reads but the YAML load throws, construction
propagates the parse error with the same partial app state. -/
theorem construct_parse_error (fs yaml : String → Option String) (p jt : String)
    (opts : Oas3AppOptions) (customs : Option (List Nat)) (spec : String)
    (h1 : fs p = some spec) (h2 : yaml spec = none) :
    ExpressAppConfig.construct fs yaml p opts customs jt =
      { result := Except.error CtorError.parseError,
        appState := opts.app.getD [] ++ [Middleware.cors opts.cors],
        appOptionsAfter := (setOpenApiValidatorOptions p opts).2 } := by
  simp only [ExpressAppConfig.construct, h1, h2]

/-- When both the read and the load succeed, construction returns the
instance carrying the full middleware chain. -/
theorem construct_ok (fs yaml : String → Option String) (p jt : String)
    (opts : Oas3AppOptions) (customs : Option (List Nat)) (spec doc : String)
    (h1 : fs p = some spec) (h2 : yaml spec = some doc) :
    ExpressAppConfig.construct fs yaml p opts customs jt =
      { result := Except.ok
          { app := opts.app.getD [] ++
              [Middleware.cors opts.cors,
               Middleware.bodyUrlencoded (effectiveParserLimit opts.parserLimit),
               Middleware.bodyText (effectiveParserLimit opts.parserLimit),
               Middleware.bodyJson (effectiveParserLimit opts.parserLimit),
               Middleware.bodyRaw "application/pdf" (effectiveParserLimit opts.parserLimit),
               Middleware.morganLogger (configureLogger opts.logging).format
                 (configureLogger opts.logging).skip.isSome,
               Middleware.expressJson jt,
               Middleware.expressUrlencoded,
               Middleware.cookieParse,
               Middleware.swaggerUi doc opts.swaggerUI,
               Middleware.openApiValidator (setOpenApiValidatorOptions p opts).1,
               Middleware.swaggerParameters] ++
              (customs.getD []).map Middleware.custom ++
              [Middleware.swaggerRouter opts.routing, Middleware.errorMiddleware],
            routingOptions := opts.routing,
            parserLimit := effectiveParserLimit opts.parserLimit,
            definitionPath := p,
            openApiValidatorOptions := (setOpenApiValidatorOptions p opts).1 },
        appState := opts.app.getD [] ++
            [Middleware.cors opts.cors,
             Middleware.bodyUrlencoded (effectiveParserLimit opts.parserLimit),
             Middleware.bodyText (effectiveParserLimit opts.parserLimit),
             Middleware.bodyJson (effectiveParserLimit opts.parserLimit),
             Middleware.bodyRaw "application/pdf" (effectiveParserLimit opts.parserLimit),
             Middleware.morganLogger (configureLogger opts.logging).format
               (configureLogger opts.logging).skip.isSome,
             Middleware.expressJson jt,
             Middleware.expressUrlencoded,
             Middleware.cookieParse,
             Middleware.swaggerUi doc opts.swaggerUI,
             Middleware.openApiValidator (setOpenApiValidatorOptions p opts).1,
             Middleware.swaggerParameters] ++
            (customs.getD []).map Middleware.custom ++
            [Middleware.swaggerRouter opts.routing, Middleware.errorMiddleware],
        appOptionsAfter := (setOpenApiValidatorOptions p opts).2 } := by
  simp only [ExpressAppConfig.construct, h1, h2]
  simp [List.append_assoc]

/-! Claim theorems. -/

/-- C1: every successful construction appends middleware to the
application handle in exactly the fixed order CORS, the four body
parsers (urlencoded, text, json, raw), the request logger,
JSON/urlencoded/cookie parsing, documentation UI, schema validation,
parameter normalization, the caller's custom middlewares in list order,
route dispatch, and the terminal error handler; in particular every
custom middleware sits after validation and normalization and before
route dispatch. -/
theorem construct_middleware_order (fs yaml : String → Option String)
    (p jt : String) (opts : Oas3AppOptions) (customs : Option (List Nat))
    (spec doc : String) (h1 : fs p = some spec) (h2 : yaml spec = some doc) :
    ∃ c, (ExpressAppConfig.construct fs yaml p opts customs jt).result = Except.ok c ∧
      c.app = opts.app.getD [] ++
        [Middleware.cors opts.cors,
         Middleware.bodyUrlencoded (effectiveParserLimit opts.parserLimit),
         Middleware.bodyText (effectiveParserLimit opts.parserLimit),
         Middleware.bodyJson (effectiveParserLimit opts.parserLimit),
         Middleware.bodyRaw "application/pdf" (effectiveParserLimit opts.parserLimit),
         Middleware.morganLogger (configureLogger opts.logging).format
           (configureLogger opts.logging).skip.isSome,
         Middleware.expressJson jt,
         Middleware.expressUrlencoded,
         Middleware.cookieParse,
         Middleware.swaggerUi doc opts.swaggerUI,
         Middleware.openApiValidator (setOpenApiValidatorOptions p opts).1,
         Middleware.swaggerParameters] ++
        (customs.getD []).map Middleware.custom ++
        [Middleware.swaggerRouter opts.routing, Middleware.errorMiddleware] := by
  rw [construct_ok fs yaml p jt opts customs spec doc h1 h2]
  exact ⟨_, rfl, rfl⟩

/-- C1 witness: a concrete successful construction with two custom
middlewares exhibits the fixed registration order. -/
theorem construct_middleware_order_witness :
    ∃ c, (ExpressAppConfig.construct wFs wYaml "api.yaml" wOptsWithApp
        (some [7, 8]) "application/json").result = Except.ok c ∧
      c.app = wOptsWithApp.app.getD [] ++
        [Middleware.cors wOptsWithApp.cors,
         Middleware.bodyUrlencoded (effectiveParserLimit wOptsWithApp.parserLimit),
         Middleware.bodyText (effectiveParserLimit wOptsWithApp.parserLimit),
         Middleware.bodyJson (effectiveParserLimit wOptsWithApp.parserLimit),
         Middleware.bodyRaw "application/pdf" (effectiveParserLimit wOptsWithApp.parserLimit),
         Middleware.morganLogger (configureLogger wOptsWithApp.logging).format
           (configureLogger wOptsWithApp.logging).skip.isSome,
         Middleware.expressJson "application/json",
         Middleware.expressUrlencoded,
         Middleware.cookieParse,
         Middleware.swaggerUi "loadedDoc" wOptsWithApp.swaggerUI,
         Middleware.openApiValidator (setOpenApiValidatorOptions "api.yaml" wOptsWithApp).1,
         Middleware.swaggerParameters] ++
        ((some [7, 8] : Option (List Nat)).getD []).map Middleware.custom ++
        [Middleware.swaggerRouter wOptsWithApp.routing, Middleware.errorMiddleware] :=
  construct_middleware_order wFs wYaml "api.yaml" "application/json" wOptsWithApp
    (some [7, 8]) "openapi: 3.0.0" "loadedDoc" rfl rfl

/-- C2: when the logging options carry an error-status threshold `t`
(a number, or a string parsing to `t`), the installed skip predicate
skips exactly the responses with status strictly below `t` and logs
every response with status at or above `t`. -/
theorem configureLogger_threshold (lo : LoggerOptions) (t status : Int)
    (h : parseIntJs lo.errorLimit = some t) :
    ∃ sk, (configureLogger (some lo)).skip = some sk ∧
      (sk status = true ↔ status < t) ∧ (sk status = false ↔ t ≤ status) := by
  have hsk : (configureLogger (some lo)).skip = some (skipFun lo.errorLimit) := by
    cases hel : lo.errorLimit with
    | jstr s => simp [configureLogger, hel]
    | jnum n => simp [configureLogger, hel]
    | jbool b => rw [hel] at h; simp [parseIntJs] at h
    | jnull => rw [hel] at h; simp [parseIntJs] at h
    | jundef => rw [hel] at h; simp [parseIntJs] at h
    | jobj => rw [hel] at h; simp [parseIntJs] at h
  refine ⟨skipFun lo.errorLimit, hsk, ?_, ?_⟩
  · simp [skipFun, h]
  · simp [skipFun, h]

/-- C2 witness: with a numeric threshold 400, status 399 is skipped. -/
theorem configureLogger_threshold_witness :
    ∃ sk, (configureLogger (some wLoggerNum)).skip = some sk ∧
      (sk 399 = true ↔ (399 : Int) < 400) ∧
      (sk 399 = false ↔ (400 : Int) ≤ 399) :=
  configureLogger_threshold wLoggerNum 400 399 rfl

/-- C3 counterexample: the claim that the handler always responds with
the status carried in the failure object's status field (defaulting to
500 only when absent) is false: a present status of 0 is falsy in
JavaScript, so `error.status || 500` yields 500, not 0. -/
theorem errorHandler_counterexample :
    ¬ ∀ e : ErrorObj, (errorHandler e).status = e.status.getD 500 := by
  intro hclaim
  have h0 := hclaim wErr0
  simp [errorHandler, wErr0] at h0

/-- C3 amended: the handler responds with the carried status when it is
present and nonzero, with 500 when it is absent or 0 (falsy), and the
JSON body carries exactly the failure's message and errors fields. -/
theorem errorHandler_amended (e : ErrorObj) (s : Int)
    (hs : e.status = some s) (hns : s ≠ 0) :
    (errorHandler e).status = s ∧
    (errorHandler { status := none, message := e.message, errors := e.errors }).status = 500 ∧
    (errorHandler { status := some 0, message := e.message, errors := e.errors }).status = 500 ∧
    (errorHandler e).bodyMessage = e.message ∧
    (errorHandler e).bodyErrors = e.errors := by
  refine ⟨?_, rfl, rfl, rfl, rfl⟩
  simp [errorHandler, hs, hns]

/-- C3 witness: a failure object with status 404 is answered with status
404 and a body carrying its message and errors fields. -/
theorem errorHandler_amended_witness :
    (errorHandler wErr404).status = 404 ∧
    (errorHandler { status := none, message := wErr404.message, errors := wErr404.errors }).status = 500 ∧
    (errorHandler { status := some 0, message := wErr404.message, errors := wErr404.errors }).status = 500 ∧
    (errorHandler wErr404).bodyMessage = wErr404.message ∧
    (errorHandler wErr404).bodyErrors = wErr404.errors :=
  errorHandler_amended wErr404 404 rfl (by decide)

/-- C4 counterexample: constructing over a caller-supplied app handle
with an empty middleware chain and a missing definition file propagates
the I/O error, yet the handle's chain is no longer unchanged: the CORS
middleware was registered before the file read. -/
theorem construct_failure_counterexample :
    (ExpressAppConfig.construct wFsMissing wYaml "missing.yaml" wOptsWithApp
        none "application/json").result = Except.error CtorError.ioError ∧
    (ExpressAppConfig.construct wFsMissing wYaml "missing.yaml" wOptsWithApp
        none "application/json").appState ≠ wOptsWithApp.app.getD [] := by
  refine ⟨rfl, by decide⟩

/-- C4 amended: on a missing file or a failing YAML load, construction
propagates an error and no instance is produced, but the application
handle in use has already received exactly the CORS middleware, so a
caller-supplied handle is left with one extra middleware appended. -/
theorem construct_failure_state (fs yaml : String → Option String)
    (p jt : String) (opts : Oas3AppOptions) (customs : Option (List Nat))
    (h : fs p = none ∨ ∃ spec, fs p = some spec ∧ yaml spec = none) :
    (∃ err, (ExpressAppConfig.construct fs yaml p opts customs jt).result =
       Except.error err) ∧
    (ExpressAppConfig.construct fs yaml p opts customs jt).appState =
      opts.app.getD [] ++ [Middleware.cors opts.cors] := by
  rcases h with h | ⟨spec, h1, h2⟩
  · rw [construct_fs_error fs yaml p jt opts customs h]
    exact ⟨⟨_, rfl⟩, rfl⟩
  · rw [construct_parse_error fs yaml p jt opts customs spec h1 h2]
    exact ⟨⟨_, rfl⟩, rfl⟩

/-- C4 amended witness: the concrete missing-file construction errors
and leaves the supplied handle with just the CORS middleware. -/
theorem construct_failure_state_witness :
    (∃ err, (ExpressAppConfig.construct wFsMissing wYaml "missing.yaml"
        wOptsWithApp none "application/json").result = Except.error err) ∧
    (ExpressAppConfig.construct wFsMissing wYaml "missing.yaml" wOptsWithApp
        none "application/json").appState =
      wOptsWithApp.app.getD [] ++ [Middleware.cors wOptsWithApp.cors] :=
  construct_failure_state wFsMissing wYaml "missing.yaml" "application/json"
    wOptsWithApp none (Or.inl rfl)

/-- C5: with no logging options, configureLogger uses the fixed `'dev'`
format preset and installs no skip predicate, so no response is ever
skipped from logging. -/
theorem configureLogger_default :
    configureLogger none = { format := "dev", skip := none } := rfl

/-- C6: the validator options used by the constructor are an object
whose `apiSpec` is the definition path when the bundle supplies no
validator options, and the supplied options with `apiSpec` overwritten
by the definition path otherwise; either way the definition path wins. -/
theorem setOpenApiValidatorOptions_spec (p : String) (optsN optsS : Oas3AppOptions)
    (v : ValidatorOptions) (hn : optsN.openApiValidator = none)
    (hs : optsS.openApiValidator = some v) :
    (setOpenApiValidatorOptions p optsN).1 = { apiSpec := some p, extra := [] } ∧
    (setOpenApiValidatorOptions p optsS).1 = { v with apiSpec := some p } ∧
    ((setOpenApiValidatorOptions p optsS).1).apiSpec = some p ∧
    ((setOpenApiValidatorOptions p optsN).1).apiSpec = some p := by
  refine ⟨?_, ?_, ?_, ?_⟩ <;> simp [setOpenApiValidatorOptions, hn, hs]

/-- C6 witness: concrete bundles with and without supplied validator
options both end with `apiSpec` equal to the definition path. -/
theorem setOpenApiValidatorOptions_spec_witness :
    (setOpenApiValidatorOptions "api.yaml" wOptsWithApp).1 = { apiSpec := some "api.yaml", extra := [] } ∧
    (setOpenApiValidatorOptions "api.yaml" wOpts).1 = { wValidatorGiven with apiSpec := some "api.yaml" } ∧
    ((setOpenApiValidatorOptions "api.yaml" wOpts).1).apiSpec = some "api.yaml" ∧
    ((setOpenApiValidatorOptions "api.yaml" wOptsWithApp).1).apiSpec = some "api.yaml" :=
  setOpenApiValidatorOptions_spec "api.yaml" wOptsWithApp wOpts wValidatorGiven rfl rfl

/-- C7: when the options bundle supplies no parser size limit, the limit
defaults to `"100kb"` and that same value is passed to all four body
parsers registered on the chain. -/
theorem construct_parser_limit_default (fs yaml : String → Option String)
    (p jt : String) (opts : Oas3AppOptions) (customs : Option (List Nat))
    (spec doc : String) (h1 : fs p = some spec) (h2 : yaml spec = some doc)
    (hl : opts.parserLimit = none) :
    ∃ c, (ExpressAppConfig.construct fs yaml p opts customs jt).result = Except.ok c ∧
      c.parserLimit = "100kb" ∧
      c.app = opts.app.getD [] ++
        [Middleware.cors opts.cors,
         Middleware.bodyUrlencoded "100kb",
         Middleware.bodyText "100kb",
         Middleware.bodyJson "100kb",
         Middleware.bodyRaw "application/pdf" "100kb",
         Middleware.morganLogger (configureLogger opts.logging).format
           (configureLogger opts.logging).skip.isSome,
         Middleware.expressJson jt,
         Middleware.expressUrlencoded,
         Middleware.cookieParse,
         Middleware.swaggerUi doc opts.swaggerUI,
         Middleware.openApiValidator (setOpenApiValidatorOptions p opts).1,
         Middleware.swaggerParameters] ++
        (customs.getD []).map Middleware.custom ++
        [Middleware.swaggerRouter opts.routing, Middleware.errorMiddleware] := by
  rw [construct_ok fs yaml p jt opts customs spec doc h1 h2]
  refine ⟨_, rfl, ?_, ?_⟩ <;> simp [effectiveParserLimit, hl]

/-- C7 witness: a concrete construction with no parser limit registers
all four body parsers with the `"100kb"` default. -/
theorem construct_parser_limit_default_witness :
    ∃ c, (ExpressAppConfig.construct wFs wYaml "api.yaml" wOptsWithApp
        none "application/json").result = Except.ok c ∧
      c.parserLimit = "100kb" ∧
      c.app = wOptsWithApp.app.getD [] ++
        [Middleware.cors wOptsWithApp.cors,
         Middleware.bodyUrlencoded "100kb",
         Middleware.bodyText "100kb",
         Middleware.bodyJson "100kb",
         Middleware.bodyRaw "application/pdf" "100kb",
         Middleware.morganLogger (configureLogger wOptsWithApp.logging).format
           (configureLogger wOptsWithApp.logging).skip.isSome,
         Middleware.expressJson "application/json",
         Middleware.expressUrlencoded,
         Middleware.cookieParse,
         Middleware.swaggerUi "loadedDoc" wOptsWithApp.swaggerUI,
         Middleware.openApiValidator (setOpenApiValidatorOptions "api.yaml" wOptsWithApp).1,
         Middleware.swaggerParameters] ++
        ((none : Option (List Nat)).getD []).map Middleware.custom ++
        [Middleware.swaggerRouter wOptsWithApp.routing, Middleware.errorMiddleware] :=
  construct_parser_limit_default wFs wYaml "api.yaml" "application/json"
    wOptsWithApp none "openapi: 3.0.0" "loadedDoc" rfl rfl rfl

/-- C8: for every successfully constructed instance, getApp returns the
stored application handle, calling it again returns the same result, it
modifies no field of the instance, and the returned handle is a
non-trivial configured chain (in particular non-empty). -/
theorem getApp_idempotent (fs yaml : String → Option String) (p jt : String)
    (opts : Oas3AppOptions) (customs : Option (List Nat)) (c : ExpressAppConfig)
    (h : (ExpressAppConfig.construct fs yaml p opts customs jt).result = Except.ok c) :
    c.getApp = (c.app, c) ∧
    (c.getApp).2.getApp = c.getApp ∧
    (c.getApp).1 = c.app ∧
    c.app ≠ [] := by
  refine ⟨rfl, rfl, rfl, ?_⟩
  cases h1 : fs p with
  | none =>
    rw [construct_fs_error fs yaml p jt opts customs h1] at h
    exact absurd h (by simp)
  | some spec =>
    cases h2 : yaml spec with
    | none =>
      rw [construct_parse_error fs yaml p jt opts customs spec h1 h2] at h
      exact absurd h (by simp)
    | some doc =>
      rw [construct_ok fs yaml p jt opts customs spec doc h1 h2] at h
      simp only [Except.ok.injEq] at h
      subst h
      simp

/-- C8 witness: the concrete constructed instance returns its handle
unchanged and untouched. -/
theorem getApp_idempotent_witness :
    wConstructed.getApp = (wConstructed.app, wConstructed) ∧
    (wConstructed.getApp).2.getApp = wConstructed.getApp ∧
    (wConstructed.getApp).1 = wConstructed.app ∧
    wConstructed.app ≠ [] :=
  getApp_idempotent wFs wYaml "api.yaml" "application/json" wOptsWithApp
    none wConstructed rfl

/-- C9: when the caller supplies validator options, construction
overwrites the `apiSpec` field of the caller's own validator-options
object with the definition path, keeps that object's other fields, and
leaves every other field of the caller's options bundle unchanged. -/
theorem construct_mutates_validator_options (fs yaml : String → Option String)
    (p jt : String) (opts : Oas3AppOptions) (customs : Option (List Nat))
    (v : ValidatorOptions) (hv : opts.openApiValidator = some v) :
    (ExpressAppConfig.construct fs yaml p opts customs jt).appOptionsAfter =
      { opts with openApiValidator := some { v with apiSpec := some p } } := by
  have hafter : (ExpressAppConfig.construct fs yaml p opts customs jt).appOptionsAfter =
      (setOpenApiValidatorOptions p opts).2 := by
    cases h1 : fs p with
    | none => rw [construct_fs_error fs yaml p jt opts customs h1]
    | some spec =>
      cases h2 : yaml spec with
      | none => rw [construct_parse_error fs yaml p jt opts customs spec h1 h2]
      | some doc => rw [construct_ok fs yaml p jt opts customs spec doc h1 h2]
  rw [hafter]
  simp [setOpenApiValidatorOptions, hv]

/-- C9 witness: a concrete construction over a bundle supplying
validator options rewrites exactly that object's `apiSpec`. -/
theorem construct_mutates_validator_options_witness :
    (ExpressAppConfig.construct wFs wYaml "api.yaml" wOpts none
        "application/json").appOptionsAfter =
      { wOpts with openApiValidator := some { wValidatorGiven with apiSpec := some "api.yaml" } } :=
  construct_mutates_validator_options wFs wYaml "api.yaml" "application/json"
    wOpts none wValidatorGiven rfl

/-- C10: an errorLimit string that does not parse as an integer installs
a skip predicate that is false on every status (everything is logged),
and an errorLimit whose type is neither string nor number installs no
skip predicate at all. -/
theorem configureLogger_skip_edge (lo lo2 : LoggerOptions) (s : String)
    (h1 : lo.errorLimit = JsVal.jstr s) (h2 : parseIntStr s = none)
    (h3 : isStringOrNumber lo2.errorLimit = false) :
    (∃ sk, (configureLogger (some lo)).skip = some sk ∧ ∀ st : Int, sk st = false) ∧
    (configureLogger (some lo2)).skip = none := by
  constructor
  · refine ⟨skipFun lo.errorLimit, ?_, ?_⟩
    · simp [configureLogger, h1]
    · intro st
      simp [skipFun, h1, parseIntJs, h2]
  · cases hel : lo2.errorLimit with
    | jstr s2 => rw [hel] at h3; simp [isStringOrNumber] at h3
    | jnum n2 => rw [hel] at h3; simp [isStringOrNumber] at h3
    | jbool b2 => simp [configureLogger, hel]
    | jnull => simp [configureLogger, hel]
    | jundef => simp [configureLogger, hel]
    | jobj => simp [configureLogger, hel]

/-- C10 witness: errorLimit `"plenty"` installs an always-false skip
predicate and a boolean errorLimit installs none. -/
theorem configureLogger_skip_edge_witness :
    (∃ sk, (configureLogger (some wLoggerBadStr)).skip = some sk ∧ ∀ st : Int, sk st = false) ∧
    (configureLogger (some wLoggerBool)).skip = none :=
  configureLogger_skip_edge wLoggerBadStr wLoggerBool "plenty" rfl (by decide) rfl

end SwaggerToolsOas3
